import Mathlib

/-!
Shallow embedding of `src/main.py` (paestelAnalyst): a FastAPI service with a
single `items` table and three routes (`GET /`, `POST /items/`, `GET /items/`),
backed by a Cloud SQL connection established in the `lifespan` hook.

Modelling choices, all read off the source:
  * The three module globals `db_connector`, `db_engine`, `DBSessionLocal`
    (lines 31-33) are each either `None` or initialized; we model each as a
    `Bool` in `Globals` (`true` = initialized, i.e. not `None`).
  * The `items` table is a list of rows plus the auto-increment counter of the
    integer primary key (line 24).  A freshly constructed Python
    `Item(name=...)` has `id = None` until the database assigns it, so the
    `id` attribute is `Option Nat`; the insert performed by
    `db.add`/`db.commit`/`db.refresh` (lines 131-133) stores and returns the
    row with the generated key.
  * A per-request persistence failure (the `except Exception as e` arms at
    lines 135-136 and 144-145) is injected as an `Option String` argument
    carrying the message of the exception the backend would raise.
  * `HTTPException(status_code, detail)` is a structure; handler outcomes are
    `Except HTTPException body`.
  * `get_db` (lines 110-118) acquires one session after the `None` check and
    closes it in `finally`; we record this as a trace of `SessionEvent`s.
-/

/-- One row of the `items` table as a Python object: `id` is `None` before the
database assigns the primary key (class `Item`, lines 22-25). -/
structure Item where
  id : Option Nat
  name : String
  deriving DecidableEq, Repr

/-- The `items` table: its rows and the next value of the auto-assigned
integer primary key. -/
structure DBState where
  items : List Item
  nextId : Nat
  deriving DecidableEq, Repr

/-- The three module-level globals of lines 31-33; `true` means the variable
was assigned (is not `None`). `sessionLocal` stands for `DBSessionLocal`. -/
structure Globals where
  db_connector : Bool
  db_engine : Bool
  sessionLocal : Bool
  deriving DecidableEq, Repr

/-- Whole in-process state: the globals plus the backing table. -/
structure AppState where
  globals : Globals
  db : DBState
  deriving DecidableEq, Repr

/-- `fastapi.HTTPException` with its status code and detail string. -/
structure HTTPException where
  statusCode : Nat
  detail : String
  deriving DecidableEq, Repr

/-- Where startup can raise inside the `try` of `lifespan` (lines 73-85):
`Connector()` at line 39, `create_engine` at line 60, or the connection
test / `create_all` / `commit` block at lines 77-80. -/
inductive FailPoint
  | connectorCreation
  | engineCreation
  | connectionTest
  deriving DecidableEq, Repr

/-- The startup half of `lifespan` (lines 70-87): run `get_db_connection`
then the schema block then `sessionmaker`, assigning each global in order;
any exception is caught at line 86 and logged.  Input: the point at which
the underlying library raises, if any.  Output: the globals after the
`try`/`except`, and whether the FATAL message of line 87 was printed. -/
def lifespan_startup : Option FailPoint → Globals × Bool
  | some .connectorCreation => (⟨false, false, false⟩, true)
  | some .engineCreation    => (⟨true,  false, false⟩, true)
  | some .connectionTest    => (⟨true,  true,  false⟩, true)
  | none                    => (⟨true,  true,  true⟩,  false)

/-- What the shutdown half of `lifespan` (lines 91-95) does to each
resource. -/
inductive ShutdownAction
  | closeConnector
  | disposeEngine
  deriving DecidableEq, Repr

/-- The shutdown half of `lifespan` (lines 91-95): `db_connector.close()`
only `if db_connector`, `db_engine.dispose()` only `if db_engine`. -/
def lifespan_shutdown (g : Globals) : List ShutdownAction :=
  (if g.db_connector then [ShutdownAction.closeConnector] else []) ++
  (if g.db_engine then [ShutdownAction.disposeEngine] else [])

/-- Executing a list of shutdown actions against the globals: acting on a
resource that is still `None` would raise an `AttributeError`, which we
model as `Except.error`. -/
def execute_shutdown (g : Globals) : List ShutdownAction → Except String Unit
  | [] => Except.ok ()
  | ShutdownAction.closeConnector :: rest =>
      if g.db_connector then execute_shutdown g rest
      else Except.error "db_connector is None"
  | ShutdownAction.disposeEngine :: rest =>
      if g.db_engine then execute_shutdown g rest
      else Except.error "db_engine is None"

/-- The `get_db` dependency's guard (lines 111-112): raise
`HTTPException(500, "Database is not connected.")` when `DBSessionLocal is
None`, otherwise proceed. -/
def get_db (g : Globals) : Except HTTPException Unit :=
  if g.sessionLocal then Except.ok ()
  else Except.error ⟨500, "Database is not connected."⟩

/-- Body of `create_item` (lines 129-136): build `Item(name=item.name)`,
insert it, let the database assign the key, return the refreshed row; any
exception `e` becomes `HTTPException(500, "Failed to create item: " + e)`.
The `fault` argument carries the exception message when the backend raises
inside the `try`. -/
def create_item (name : String) (fault : Option String) (db : DBState) :
    Except HTTPException (Item × DBState) :=
  match fault with
  | some e => Except.error ⟨500, "Failed to create item: " ++ e⟩
  | none =>
      let new_item : Item := ⟨some db.nextId, name⟩
      Except.ok (new_item, ⟨db.items ++ [new_item], db.nextId + 1⟩)

/-- Body of `read_items` (lines 141-145): `db.query(Item).all()` returns
every row; any exception `e` becomes
`HTTPException(500, "Failed to read items: " + e)`. -/
def read_items (fault : Option String) (db : DBState) :
    Except HTTPException (List Item × DBState) :=
  match fault with
  | some e => Except.error ⟨500, "Failed to read items: " ++ e⟩
  | none => Except.ok (db.items, db)

/-- `read_root` (lines 122-124): the literal dict returned by `GET /`. -/
def read_root : List (String × String) := [("Hello", "From FastAPI!")]

/-- A request to one of the three routes. -/
inductive Request
  | root
  | createItem (name : String)
  | listItems
  deriving DecidableEq, Repr

/-- A successful response body: the greeting dict, a single row, or a list
of rows. -/
inductive ResponseBody
  | greeting (g : List (String × String))
  | item (it : Item)
  | items (l : List Item)
  deriving DecidableEq, Repr

/-- What `get_db` does with the session `db = DBSessionLocal()` around the
handler: created at line 114, closed in the `finally` at line 118. -/
inductive SessionEvent
  | acquired
  | released
  deriving DecidableEq, Repr

/-- Outcome of serving one request: the HTTP response (body or exception),
the state afterwards, and the trace of session events. -/
structure StepResult where
  response : Except HTTPException ResponseBody
  state : AppState
  sessions : List SessionEvent
  deriving Repr

/-- Serve one request.  `GET /` has no `Depends(get_db)` and touches no
database state.  For the two item routes, the `get_db` dependency runs
first: if `DBSessionLocal is None` the request fails before any session
exists; otherwise one session is acquired, the handler body runs (with the
injected `fault`, if any), and the session is closed in `finally` whether
the body returned or raised. -/
def handle (req : Request) (fault : Option String) (s : AppState) : StepResult :=
  match req with
  | Request.root => ⟨Except.ok (ResponseBody.greeting read_root), s, []⟩
  | Request.createItem name =>
      match get_db s.globals with
      | Except.error e => ⟨Except.error e, s, []⟩
      | Except.ok _ =>
          match create_item name fault s.db with
          | Except.ok (it, db') =>
              ⟨Except.ok (ResponseBody.item it), { s with db := db' },
               [SessionEvent.acquired, SessionEvent.released]⟩
          | Except.error e =>
              ⟨Except.error e, s,
               [SessionEvent.acquired, SessionEvent.released]⟩
  | Request.listItems =>
      match get_db s.globals with
      | Except.error e => ⟨Except.error e, s, []⟩
      | Except.ok _ =>
          match read_items fault s.db with
          | Except.ok (l, db') =>
              ⟨Except.ok (ResponseBody.items l), { s with db := db' },
               [SessionEvent.acquired, SessionEvent.released]⟩
          | Except.error e =>
              ⟨Except.error e, s,
               [SessionEvent.acquired, SessionEvent.released]⟩

/-- The uniqueness invariant on the table: the `id` columns of the stored
rows are pairwise distinct, every stored row has an assigned (`some`) key,
and every assigned key is below the auto-increment counter. -/
def UniqueIds (db : DBState) : Prop :=
  (db.items.map Item.id).Nodup ∧
  ∀ it ∈ db.items, ∃ n, it.id = some n ∧ n < db.nextId

instance (db : DBState) : Decidable (UniqueIds db) := by
  unfold UniqueIds
  exact instDecidableAnd

/-! ## Theorems -/

/-- C1: a `POST /items/` carrying a name, served with the session factory
initialized and the backend raising no exception, inserts exactly one row
(the old table plus the new row) and responds with the persisted row,
carrying the generated identifier and the given name. -/
theorem create_item_inserts_one_row (s : AppState) (name : String)
    (h : s.globals.sessionLocal = true) :
    (handle (Request.createItem name) none s).response
        = Except.ok (ResponseBody.item ⟨some s.db.nextId, name⟩) ∧
    (handle (Request.createItem name) none s).state.db.items
        = s.db.items ++ [⟨some s.db.nextId, name⟩] ∧
    (handle (Request.createItem name) none s).state.db.items.length
        = s.db.items.length + 1 := by
  simp [handle, get_db, h, create_item]

/-- Witness for C1 at the concrete state with three-true globals, an empty
table and counter 5, name "foo". -/
theorem create_item_inserts_one_row_witness :
    (handle (Request.createItem "foo") none ⟨⟨true, true, true⟩, ⟨[], 5⟩⟩).response
        = Except.ok (ResponseBody.item ⟨some 5, "foo"⟩) ∧
    (handle (Request.createItem "foo") none ⟨⟨true, true, true⟩, ⟨[], 5⟩⟩).state.db.items
        = ([] : List Item) ++ [⟨some 5, "foo"⟩] ∧
    (handle (Request.createItem "foo") none ⟨⟨true, true, true⟩, ⟨[], 5⟩⟩).state.db.items.length
        = ([] : List Item).length + 1 :=
  create_item_inserts_one_row ⟨⟨true, true, true⟩, ⟨[], 5⟩⟩ "foo" rfl

/-- C7: `GET /` returns the fixed greeting dict whatever the state, leaves
the state untouched and acquires no session. -/
theorem read_root_fixed_greeting (s : AppState) (fault : Option String) :
    handle Request.root fault s
      = ⟨Except.ok (ResponseBody.greeting [("Hello", "From FastAPI!")]), s, []⟩ :=
  rfl

/-- C5: `GET /items/` served with the session factory initialized and no
backend exception returns exactly the rows of the table; in particular on
an empty table it returns the empty list. -/
theorem read_items_returns_all_rows (s : AppState)
    (h : s.globals.sessionLocal = true) :
    (handle Request.listItems none s).response
        = Except.ok (ResponseBody.items s.db.items) ∧
    (s.db.items = [] →
      (handle Request.listItems none s).response
        = Except.ok (ResponseBody.items [])) := by
  constructor
  · simp [handle, get_db, h, read_items]
  · intro he
    simp [handle, get_db, h, read_items, he]

/-- Witness for C5 at the empty table. -/
theorem read_items_returns_all_rows_witness :
    (handle Request.listItems none ⟨⟨true, true, true⟩, ⟨[], 0⟩⟩).response
        = Except.ok (ResponseBody.items ([] : List Item)) ∧
    (([] : List Item) = [] →
      (handle Request.listItems none ⟨⟨true, true, true⟩, ⟨[], 0⟩⟩).response
        = Except.ok (ResponseBody.items [])) :=
  read_items_returns_all_rows ⟨⟨true, true, true⟩, ⟨[], 0⟩⟩ rfl

/-- Helper shared by several results: any `HTTPException` escaping `handle`
has status code 500 (the only raises in the source are the three
`HTTPException(status_code=500, ...)` at lines 112, 136, 145). -/
theorem handle_error_statusCode (req : Request) (fault : Option String)
    (s : AppState) (ex : HTTPException)
    (h : (handle req fault s).response = Except.error ex) :
    ex.statusCode = 500 := by
  cases req with
  | root => simp [handle] at h
  | createItem name =>
      cases hg : s.globals.sessionLocal with
      | false =>
          simp [handle, get_db, hg] at h
          rw [← h]
      | true =>
          cases fault with
          | none => simp [handle, get_db, hg, create_item] at h
          | some e =>
              simp [handle, get_db, hg, create_item] at h
              rw [← h]
  | listItems =>
      cases hg : s.globals.sessionLocal with
      | false =>
          simp [handle, get_db, hg] at h
          rw [← h]
      | true =>
          cases fault with
          | none => simp [handle, get_db, hg, read_items] at h
          | some e =>
              simp [handle, get_db, hg, read_items] at h
              rw [← h]

/-- C3: with the session factory initialized, a backend exception `e`
during `POST /items/` surfaces as `500, "Failed to create item: " + e`,
and during `GET /items/` as `500, "Failed to read items: " + e`; and no
error of any other status ever escapes these handlers. -/
theorem persistence_failures_surface_as_500 :
    (∀ (s : AppState) (name e : String), s.globals.sessionLocal = true →
        (handle (Request.createItem name) (some e) s).response
          = Except.error ⟨500, "Failed to create item: " ++ e⟩) ∧
    (∀ (s : AppState) (e : String), s.globals.sessionLocal = true →
        (handle Request.listItems (some e) s).response
          = Except.error ⟨500, "Failed to read items: " ++ e⟩) ∧
    (∀ (req : Request) (fault : Option String) (s : AppState)
        (ex : HTTPException),
        (handle req fault s).response = Except.error ex →
        ex.statusCode = 500) := by
  refine ⟨?_, ?_, handle_error_statusCode⟩
  · intro s name e h
    simp [handle, get_db, h, create_item]
  · intro s e h
    simp [handle, get_db, h, read_items]

/-- Witness for C3: a concrete backend failure "boom" on each route, and a
concrete escaping error whose status is checked to be 500. -/
theorem persistence_failures_surface_as_500_witness :
    (handle (Request.createItem "a") (some "boom")
        ⟨⟨true, true, true⟩, ⟨[], 0⟩⟩).response
      = Except.error ⟨500, "Failed to create item: " ++ "boom"⟩ ∧
    (handle Request.listItems (some "boom")
        ⟨⟨true, true, true⟩, ⟨[], 0⟩⟩).response
      = Except.error ⟨500, "Failed to read items: " ++ "boom"⟩ ∧
    (⟨500, "Database is not connected."⟩ : HTTPException).statusCode = 500 :=
  ⟨persistence_failures_surface_as_500.1 ⟨⟨true, true, true⟩, ⟨[], 0⟩⟩ "a" "boom" rfl,
   persistence_failures_surface_as_500.2.1 ⟨⟨true, true, true⟩, ⟨[], 0⟩⟩ "boom" rfl,
   persistence_failures_surface_as_500.2.2 Request.listItems none
     ⟨⟨false, false, false⟩, ⟨[], 0⟩⟩ ⟨500, "Database is not connected."⟩ rfl⟩

/-- C2 counterexample: after a failed startup (here: the connection test
raised), the FATAL log fired, yet the subsequent `GET /` request does NOT
fail: it returns the greeting, not the "not connected" error.  So it is
false that every subsequent request fails. -/
theorem startup_failure_root_succeeds :
    (lifespan_startup (some FailPoint.connectionTest)).2 = true ∧
    (handle Request.root none
        ⟨(lifespan_startup (some FailPoint.connectionTest)).1, ⟨[], 0⟩⟩).response
      = Except.ok (ResponseBody.greeting [("Hello", "From FastAPI!")]) ∧
    (handle Request.root none
        ⟨(lifespan_startup (some FailPoint.connectionTest)).1, ⟨[], 0⟩⟩).response
      ≠ Except.error ⟨500, "Database is not connected."⟩ := by
  refine ⟨rfl, rfl, ?_⟩
  intro h
  exact Except.noConfusion h

/-- C2 (amended): if the startup connection fails at any point, the failure
is logged and the service keeps serving: every subsequent request that
depends on the database (create or list) fails with the fixed
`500, "Database is not connected."` error, for any table state and any
injected backend fault, rather than hanging or crashing. -/
theorem startup_failure_db_requests_fail (f : FailPoint) (db : DBState)
    (name : String) (fault : Option String) :
    (lifespan_startup (some f)).2 = true ∧
    (handle (Request.createItem name) fault
        ⟨(lifespan_startup (some f)).1, db⟩).response
      = Except.error ⟨500, "Database is not connected."⟩ ∧
    (handle Request.listItems fault
        ⟨(lifespan_startup (some f)).1, db⟩).response
      = Except.error ⟨500, "Database is not connected."⟩ := by
  cases f <;> exact ⟨rfl, rfl, rfl⟩

/-- C8: with the session factory initialized, a create or list request
acquires exactly one session and releases it afterwards — the trace is
acquire then release — whatever fault the handler body hits; and
unconditionally every request's trace is empty or acquire-then-release,
so no session ever outlives its request. -/
theorem session_per_request (s : AppState) (fault : Option String)
    (h : s.globals.sessionLocal = true) :
    (∀ name, (handle (Request.createItem name) fault s).sessions
        = [SessionEvent.acquired, SessionEvent.released]) ∧
    (handle Request.listItems fault s).sessions
        = [SessionEvent.acquired, SessionEvent.released] ∧
    (∀ (req : Request) (f2 : Option String) (s2 : AppState),
        (handle req f2 s2).sessions = [] ∨
        (handle req f2 s2).sessions
          = [SessionEvent.acquired, SessionEvent.released]) := by
  refine ⟨?_, ?_, ?_⟩
  · intro name
    cases fault <;> simp [handle, get_db, h, create_item]
  · cases fault <;> simp [handle, get_db, h, read_items]
  · intro req f2 s2
    cases req with
    | root => exact Or.inl rfl
    | createItem n =>
        cases hg : s2.globals.sessionLocal with
        | false => exact Or.inl (by simp [handle, get_db, hg])
        | true =>
            exact Or.inr (by cases f2 <;> simp [handle, get_db, hg, create_item])
    | listItems =>
        cases hg : s2.globals.sessionLocal with
        | false => exact Or.inl (by simp [handle, get_db, hg])
        | true =>
            exact Or.inr (by cases f2 <;> simp [handle, get_db, hg, read_items])

/-- Witness for C8 at a connected state with a backend fault injected. -/
theorem session_per_request_witness :
    (∀ name, (handle (Request.createItem name) (some "boom")
        ⟨⟨true, true, true⟩, ⟨[], 0⟩⟩).sessions
        = [SessionEvent.acquired, SessionEvent.released]) ∧
    (handle Request.listItems (some "boom")
        ⟨⟨true, true, true⟩, ⟨[], 0⟩⟩).sessions
        = [SessionEvent.acquired, SessionEvent.released] ∧
    (∀ (req : Request) (f2 : Option String) (s2 : AppState),
        (handle req f2 s2).sessions = [] ∨
        (handle req f2 s2).sessions
          = [SessionEvent.acquired, SessionEvent.released]) :=
  session_per_request ⟨⟨true, true, true⟩, ⟨[], 0⟩⟩ (some "boom") rfl

/-- C9: no request ever updates or deletes an existing row: the table after
any request is the table before it with (possibly zero) rows appended; and
root/list requests leave the table exactly as it was. -/
theorem rows_never_updated_or_deleted :
    (∀ (req : Request) (fault : Option String) (s : AppState),
        ∃ t, (handle req fault s).state.db.items = s.db.items ++ t) ∧
    (∀ (fault : Option String) (s : AppState),
        (handle Request.listItems fault s).state.db = s.db ∧
        (handle Request.root fault s).state.db = s.db) := by
  constructor
  · intro req fault s
    cases req with
    | root => exact ⟨[], by simp [handle]⟩
    | createItem n =>
        cases hg : s.globals.sessionLocal with
        | false => exact ⟨[], by simp [handle, get_db, hg]⟩
        | true =>
            cases fault with
            | some e => exact ⟨[], by simp [handle, get_db, hg, create_item]⟩
            | none =>
                exact ⟨[⟨some s.db.nextId, n⟩],
                  by simp [handle, get_db, hg, create_item]⟩
    | listItems =>
        cases hg : s.globals.sessionLocal with
        | false => exact ⟨[], by simp [handle, get_db, hg]⟩
        | true =>
            cases fault with
            | some e => exact ⟨[], by simp [handle, get_db, hg, read_items]⟩
            | none => exact ⟨[], by simp [handle, get_db, hg, read_items]⟩
  · intro fault s
    constructor
    · cases hg : s.globals.sessionLocal with
      | false => simp [handle, get_db, hg]
      | true => cases fault <;> simp [handle, get_db, hg, read_items]
    · rfl

/-- C4: from any connected state, posting name "foo" and then listing
yields a list response containing an entry named "foo" whose identifier is
assigned (not `None`). -/
theorem create_then_list_round_trip (s : AppState)
    (h : s.globals.sessionLocal = true) :
    ∃ l, (handle Request.listItems none
            (handle (Request.createItem "foo") none s).state).response
          = Except.ok (ResponseBody.items l) ∧
        ∃ it ∈ l, it.name = "foo" ∧ it.id ≠ none := by
  refine ⟨s.db.items ++ [⟨some s.db.nextId, "foo"⟩], ?_,
    ⟨some s.db.nextId, "foo"⟩, ?_, rfl, by simp⟩
  · simp [handle, get_db, h, create_item, read_items]
  · simp

/-- Witness for C4 at the empty connected state. -/
theorem create_then_list_round_trip_witness :
    ∃ l, (handle Request.listItems none
            (handle (Request.createItem "foo") none
              ⟨⟨true, true, true⟩, ⟨[], 0⟩⟩).state).response
          = Except.ok (ResponseBody.items l) ∧
        ∃ it ∈ l, it.name = "foo" ∧ it.id ≠ none :=
  create_then_list_round_trip ⟨⟨true, true, true⟩, ⟨[], 0⟩⟩ rfl

/-- Helper: inserting a fresh row keyed by the auto-increment counter and
bumping the counter preserves the uniqueness invariant. -/
theorem uniqueIds_insert (db : DBState) (n : String) (hu : UniqueIds db) :
    UniqueIds ⟨db.items ++ [⟨some db.nextId, n⟩], db.nextId + 1⟩ := by
  rcases hu with ⟨hnd, hbd⟩
  refine ⟨?_, ?_⟩
  · show ((db.items ++ [(⟨some db.nextId, n⟩ : Item)]).map Item.id).Nodup
    rw [List.map_append]
    refine List.Nodup.append hnd (by simp) ?_
    intro a ha hb
    simp only [List.map_cons, List.map_nil, List.mem_singleton] at hb
    subst hb
    rcases List.mem_map.1 ha with ⟨it, hit, hid⟩
    rcases hbd it hit with ⟨k, hk, hlt⟩
    rw [hk] at hid
    have hkn : k = db.nextId := Option.some.inj hid
    omega
  · intro it hit
    show ∃ m, it.id = some m ∧ m < db.nextId + 1
    rcases List.mem_append.1 hit with hold | hnew
    · rcases hbd it hold with ⟨k, hk, hlt⟩
      exact ⟨k, hk, by omega⟩
    · simp only [List.mem_singleton] at hnew
      subst hnew
      exact ⟨db.nextId, rfl, by omega⟩

/-- C6: two sequential successful creates on a connected state return two
distinct auto-assigned identifiers; and the uniqueness invariant on stored
identifiers is preserved by every request the service handles. -/
theorem item_identifiers_unique :
    (∀ (s : AppState) (n1 n2 : String), s.globals.sessionLocal = true →
        ∃ i1 i2 : Nat, i1 ≠ i2 ∧
          (handle (Request.createItem n1) none s).response
            = Except.ok (ResponseBody.item ⟨some i1, n1⟩) ∧
          (handle (Request.createItem n2) none
              (handle (Request.createItem n1) none s).state).response
            = Except.ok (ResponseBody.item ⟨some i2, n2⟩)) ∧
    (∀ (req : Request) (fault : Option String) (s : AppState),
        UniqueIds s.db → UniqueIds (handle req fault s).state.db) := by
  constructor
  · intro s n1 n2 h
    refine ⟨s.db.nextId, s.db.nextId + 1, by omega, ?_, ?_⟩
    · simp [handle, get_db, h, create_item]
    · simp [handle, get_db, h, create_item]
  · intro req fault s hu
    cases req with
    | root => exact hu
    | createItem n =>
        cases hg : s.globals.sessionLocal with
        | false => simp only [handle, get_db, hg]; exact hu
        | true =>
            cases fault with
            | some e => simp only [handle, get_db, hg, create_item]; exact hu
            | none =>
                have h2 := uniqueIds_insert s.db n hu
                simp only [handle, get_db, hg, create_item]
                simpa using h2
    | listItems =>
        cases hg : s.globals.sessionLocal with
        | false => simp only [handle, get_db, hg]; exact hu
        | true =>
            cases fault with
            | some e => simp only [handle, get_db, hg, read_items]; exact hu
            | none => simp only [handle, get_db, hg, read_items]; exact hu

/-- Witness for C6 at the empty connected state: two creates there, and
invariant preservation across one create starting from the empty table. -/
theorem item_identifiers_unique_witness :
    (∃ i1 i2 : Nat, i1 ≠ i2 ∧
        (handle (Request.createItem "a") none
            ⟨⟨true, true, true⟩, ⟨[], 0⟩⟩).response
          = Except.ok (ResponseBody.item ⟨some i1, "a"⟩) ∧
        (handle (Request.createItem "b") none
            (handle (Request.createItem "a") none
              ⟨⟨true, true, true⟩, ⟨[], 0⟩⟩).state).response
          = Except.ok (ResponseBody.item ⟨some i2, "b"⟩)) ∧
    UniqueIds (handle (Request.createItem "a") none
        ⟨⟨true, true, true⟩, ⟨[], 0⟩⟩).state.db :=
  ⟨item_identifiers_unique.1 ⟨⟨true, true, true⟩, ⟨[], 0⟩⟩ "a" "b" rfl,
   item_identifiers_unique.2 (Request.createItem "a") none
     ⟨⟨true, true, true⟩, ⟨[], 0⟩⟩ (by decide)⟩

/-- C10: for every startup outcome — full success or failure at any point —
the shutdown path closes the connector exactly when it was initialized and
disposes the engine exactly when it was initialized, and executes without
error; in particular after a failure in the connection-test block the
connector is set while the session factory is not, and shutdown still
completes. -/
theorem shutdown_guarded_completes (failAt : Option FailPoint) :
    execute_shutdown (lifespan_startup failAt).1
        (lifespan_shutdown (lifespan_startup failAt).1) = Except.ok () ∧
    (ShutdownAction.closeConnector
        ∈ lifespan_shutdown (lifespan_startup failAt).1
      ↔ (lifespan_startup failAt).1.db_connector = true) ∧
    (ShutdownAction.disposeEngine
        ∈ lifespan_shutdown (lifespan_startup failAt).1
      ↔ (lifespan_startup failAt).1.db_engine = true) ∧
    ((lifespan_startup (some FailPoint.connectionTest)).1.db_connector = true ∧
     (lifespan_startup (some FailPoint.connectionTest)).1.sessionLocal = false) := by
  have hm : ∀ g : Globals,
      execute_shutdown g (lifespan_shutdown g) = Except.ok () ∧
      (ShutdownAction.closeConnector ∈ lifespan_shutdown g
        ↔ g.db_connector = true) ∧
      (ShutdownAction.disposeEngine ∈ lifespan_shutdown g
        ↔ g.db_engine = true) := by
    intro g
    rcases g with ⟨c, e, l⟩
    cases c <;> cases e <;> cases l <;>
      exact ⟨rfl, by decide, by decide⟩
  exact ⟨(hm _).1, (hm _).2.1, (hm _).2.2, rfl, rfl⟩
